import Mathlib

/-!
Verification of the caching discipline of the autozen e-commerce backend
(`server/cart/models.py`, `server/cart/utils.py`, `server/products/models.py`,
`server/products/cache_utils.py`, `server/order/views.py`, `server/order/utils.py`).

The cache is modelled as a partial map from key strings to dynamically typed
values (`CVal`), mirroring Django's `cache.get` / `cache.set` /
`cache.delete_many`.  Read-through accessors additionally report how many
Store (database) queries they issued, so that cache-hit / cache-miss claims
can be stated.  Decimal prices are modelled as exact rationals (Django's
`DecimalField` arithmetic is exact), quantities as integers.
-/

/-- A product row (`products/models.py`, class `Product`): the attributes that
drive cart pricing and cache addressing (id, slug, sku, price, is_active). -/
structure Product where
  id : Nat
  slug : String
  sku : String
  price : Rat
  isActive : Bool
  deriving DecidableEq, Repr

/-- A brand row (`products/models.py`, class `Brand`): the attributes that
drive cache addressing. -/
structure Brand where
  id : Nat
  name : String
  slug : String
  isActive : Bool
  deriving DecidableEq, Repr

/-- Dynamically typed cache payloads: Python caches ints, Decimals, model
instances and serialized lists under the same `cache.get`/`cache.set` API.
`blob` stands for any other serialized payload (navigation tree, page
content, ...) whose internal structure no claim depends on. -/
inductive CVal where
  | nat (n : Nat)
  | int (n : Int)
  | rat (q : Rat)
  | product (p : Product)
  | brands (l : List Brand)
  | orders (l : List Nat)
  | blob (n : Nat)
  deriving DecidableEq, Repr

/-- The cache: an opaque key-value store, `none` meaning the key is absent
(Django's `cache.get` returns `None` on a missing key). -/
def Cache : Type := String → Option CVal

/-- The empty cache. -/
def emptyCache : Cache := fun _ => none

/-- Model of `cache.set(key, value, timeout)` (the TTL is not modelled:
no claim is about expiry). -/
def cacheSet (σ : Cache) (k : String) (v : CVal) : Cache :=
  fun k' => if k' = k then some v else σ k'

/-- Model of `cache.delete(key)`: delete-if-present. -/
def cacheDelete (σ : Cache) (k : String) : Cache :=
  fun k' => if k' = k then none else σ k'

/-- Model of `cache.delete_many(keys)`. -/
def cacheDeleteMany (σ : Cache) (ks : List String) : Cache :=
  ks.foldl cacheDelete σ

/-- Outcome of a read-through accessor: the value produced, the cache after
the call, and the number of Store queries the call issued. -/
structure ReadOut (α : Type) where
  value : α
  cache : Cache
  storeQueries : Nat

/-- A cart item row (`cart/models.py`, class `CartItem`): product foreign key,
quantity, and the nullable captured price (`price = models.DecimalField(...,
null=True, blank=True)`). -/
structure CartItem where
  productId : Nat
  quantity : Int
  price : Option Rat
  deriving DecidableEq, Repr

/-- Source `CartItem.total_price`: `0` if `price is None`, else
`quantity * price`. -/
def CartItem.total_price (i : CartItem) : Rat :=
  match i.price with
  | none => 0
  | some p => i.quantity * p

/-- Source `CartItem.save`: `if self.price is None and self.product:
self.price = self.product.price` — the captured price is filled in from the
product only when it is still unset. -/
def CartItem.save (p : Product) (i : CartItem) : CartItem :=
  if i.price = none then { i with price := some p.price } else i

/-- A cart row (`cart/models.py`, class `Cart`) together with its item rows
(the reverse foreign key `self.items`). -/
structure Cart where
  id : Nat
  items : List CartItem
  deriving DecidableEq, Repr

/-- Cache key `f"cart_items_count_{self.id}"`. -/
def cart_items_count_key (cartId : Nat) : String :=
  "cart_items_count_" ++ toString cartId

/-- Cache key `f"cart_total_quantity_{self.id}"`. -/
def cart_total_quantity_key (cartId : Nat) : String :=
  "cart_total_quantity_" ++ toString cartId

/-- Cache key `f"cart_subtotal_{self.id}"`. -/
def cart_subtotal_key (cartId : Nat) : String :=
  "cart_subtotal_" ++ toString cartId

/-- The three aggregate cache keys of a cart, in the order they are listed in
`Cart._invalidate_cache` (and in `cart/utils.py`,
`invalidate_cart_properties_cache`, which lists the same three keys). -/
def cartAggregateKeys (cartId : Nat) : List String :=
  [cart_items_count_key cartId, cart_total_quantity_key cartId,
   cart_subtotal_key cartId]

/-- Source `Cart._invalidate_cache`: `cache.delete_many` of the three
aggregate keys. -/
def Cart.invalidate_cache (c : Cart) (σ : Cache) : Cache :=
  cacheDeleteMany σ (cartAggregateKeys c.id)

/-- Store-side `self.items.count()`: the number of item rows. -/
def itemsCountStore (items : List CartItem) : Nat := items.length

/-- Store-side `self.items.aggregate(total=Sum('quantity'))` followed by
`result['total'] or 0`: the sum of the quantities, `0` for an empty cart
(SQL `SUM` over no rows is `NULL`, which `or 0` turns into `0`). -/
def sumQuantity (items : List CartItem) : Int :=
  items.foldr (fun i acc => i.quantity + acc) 0

/-- One row's contribution to `Sum(F('quantity') * F('price'))`: SQL skips a
row whose `price` is `NULL` (its product is `NULL`), which is the same as
contributing `0`. -/
def itemSubtotal (i : CartItem) : Rat :=
  match i.price with
  | none => 0
  | some p => i.quantity * p

/-- Store-side `self.items.aggregate(subtotal=Sum(F('quantity') * F('price')))`
followed by `result['subtotal'] or 0`. -/
def sumSubtotal (items : List CartItem) : Rat :=
  items.foldr (fun i acc => itemSubtotal i + acc) 0

/-- Source `Cart.items_count` property: cache-aside read of the item count.
A hit returns the cached value with zero Store queries; a miss counts the
rows (one Store query) and caches the result. -/
def Cart.items_count (c : Cart) (σ : Cache) : ReadOut CVal :=
  match σ (cart_items_count_key c.id) with
  | some v => ⟨v, σ, 0⟩
  | none =>
      let v := CVal.nat (itemsCountStore c.items)
      ⟨v, cacheSet σ (cart_items_count_key c.id) v, 1⟩

/-- Source `Cart.total_quantity` property: cache-aside read of the summed
quantity. -/
def Cart.total_quantity (c : Cart) (σ : Cache) : ReadOut CVal :=
  match σ (cart_total_quantity_key c.id) with
  | some v => ⟨v, σ, 0⟩
  | none =>
      let v := CVal.int (sumQuantity c.items)
      ⟨v, cacheSet σ (cart_total_quantity_key c.id) v, 1⟩

/-- Source `Cart.subtotal` property: cache-aside read of the summed
`quantity * price`. -/
def Cart.subtotal (c : Cart) (σ : Cache) : ReadOut CVal :=
  match σ (cart_subtotal_key c.id) with
  | some v => ⟨v, σ, 0⟩
  | none =>
      let v := CVal.rat (sumSubtotal c.items)
      ⟨v, cacheSet σ (cart_subtotal_key c.id) v, 1⟩

/-- Source `Cart.add_item`: `get_or_create` on `(cart, product)` with defaults
`quantity`, `price=product.price`; when the row already exists its quantity is
incremented and saved (`CartItem.save` leaves a non-null price untouched);
then `self.save()` (timestamp only) and `self._invalidate_cache()`. -/
def Cart.add_item (c : Cart) (σ : Cache) (p : Product) (quantity : Int) :
    CartItem × Cart × Cache :=
  match c.items.find? (fun i => i.productId == p.id) with
  | some item =>
      let item' := CartItem.save p { item with quantity := item.quantity + quantity }
      let items' := c.items.map (fun i => if i.productId == p.id then item' else i)
      let c' := { c with items := items' }
      (item', c', c'.invalidate_cache σ)
  | none =>
      let item' : CartItem := ⟨p.id, quantity, some p.price⟩
      let c' := { c with items := c.items ++ [item'] }
      (item', c', c'.invalidate_cache σ)

/-- Source `Cart.remove_item`: delete the item row for the product if present
(then `self.save()` and `self._invalidate_cache()`, returning `True`),
else return `False` with no write and no invalidation. -/
def Cart.remove_item (c : Cart) (σ : Cache) (p : Product) :
    Bool × Cart × Cache :=
  if (c.items.find? (fun i => i.productId == p.id)).isSome then
    let c' := { c with items := c.items.filter (fun i => !(i.productId == p.id)) }
    (true, c', c'.invalidate_cache σ)
  else
    (false, c, σ)

/-- Source `Cart.update_item_quantity`: for `quantity <= 0` it delegates to
`remove_item` (the source returns that call's boolean; only the resulting
state matters here, so this model returns `none` in that branch); otherwise
it sets the row's quantity and saves it if the row exists, invalidating the
cache, and returns `none` without touching anything if it does not. -/
def Cart.update_item_quantity (c : Cart) (σ : Cache) (p : Product)
    (quantity : Int) : Option CartItem × Cart × Cache :=
  if quantity ≤ 0 then
    let r := c.remove_item σ p
    (none, r.2.1, r.2.2)
  else
    match c.items.find? (fun i => i.productId == p.id) with
    | some item =>
        let item' := CartItem.save p { item with quantity := quantity }
        let items' := c.items.map (fun i => if i.productId == p.id then item' else i)
        let c' := { c with items := items' }
        (some item', c', c'.invalidate_cache σ)
    | none => (none, c, σ)

/-- Source `Cart.clear`: `self.items.all().delete()`, `self.save()`,
`self._invalidate_cache()`. -/
def Cart.clear (c : Cart) (σ : Cache) : Cart × Cache :=
  ({ c with items := [] }, c.invalidate_cache σ)

/-- Deleting a single key preserves absence of any key. -/
theorem cacheDelete_none (σ : Cache) (k k' : String) (hk : σ k' = none) :
    cacheDelete σ k k' = none := by
  simp [cacheDelete, hk]

/-- Deleting keys never adds a key: a key absent before `delete_many` is
absent after. -/
theorem cacheDeleteMany_none (σ : Cache) (ks : List String) (k : String)
    (hk : σ k = none) : cacheDeleteMany σ ks k = none := by
  induction ks generalizing σ with
  | nil => simpa [cacheDeleteMany] using hk
  | cons a as ih =>
      simp only [cacheDeleteMany, List.foldl_cons] at *
      exact ih (cacheDelete σ a) (cacheDelete_none σ a k hk)

/-- Deleting a list of keys removes every key in the list. -/
theorem cacheDeleteMany_mem (σ : Cache) (ks : List String) (k : String)
    (hk : k ∈ ks) : cacheDeleteMany σ ks k = none := by
  induction ks generalizing σ with
  | nil => cases hk
  | cons a as ih =>
      by_cases h : k = a
      · subst h
        simp only [cacheDeleteMany, List.foldl_cons]
        exact cacheDeleteMany_none (cacheDelete σ k) as k (by simp [cacheDelete])
      · rcases List.mem_cons.mp hk with h' | h'
        · exact absurd h' h
        · simp only [cacheDeleteMany, List.foldl_cons]
          exact ih (cacheDelete σ a) h'

/-- Source `invalidate_brand_cache` (`products/cache_utils.py`):
`delete_many` of the brand's models-count and models-list keys — and of
nothing else. -/
def invalidate_brand_cache (brand_id : Nat) (σ : Cache) : Cache :=
  cacheDeleteMany σ
    ["brand_models_count_" ++ toString brand_id,
     "brand_models_" ++ toString brand_id]

/-- Source `invalidate_vehicle_model_cache` (`products/cache_utils.py`):
`delete_many` of the model's own products-count and products-list keys. -/
def invalidate_vehicle_model_cache (model_id : Nat) (σ : Cache) : Cache :=
  cacheDeleteMany σ
    ["vehicle_model_products_count_" ++ toString model_id,
     "vehicle_model_products_" ++ toString model_id]

/-- Source `invalidate_part_category_cache` (`products/cache_utils.py`):
`delete_many` of the category's own six keys. -/
def invalidate_part_category_cache (category_id : Nat) (σ : Cache) : Cache :=
  cacheDeleteMany σ
    ["part_category_subcategories_count_" ++ toString category_id,
     "part_category_subcategories_" ++ toString category_id,
     "part_category_products_" ++ toString category_id,
     "part_category_instance_" ++ toString category_id,
     "part_category_is_parent_" ++ toString category_id,
     "part_category_full_path_" ++ toString category_id]

/-- Python truthiness of an optional integer argument (`if product_id:`). -/
def truthyNat : Option Nat → Bool
  | none => false
  | some n => n != 0

/-- Python truthiness of an optional string argument (`if sku:`). -/
def truthyStr : Option String → Bool
  | none => false
  | some s => s != ""

/-- Source `invalidate_product_cache(product_id=None, sku=None)`
(`products/cache_utils.py`): deletes `product_instance_{product_id}` when a
truthy `product_id` is passed and `product_by_sku_{sku}` when a truthy `sku`
is passed; no key is derived from the slug. -/
def invalidate_product_cache (product_id : Option Nat) (sku : Option String)
    (σ : Cache) : Cache :=
  let idKeys := if truthyNat product_id then
    ["product_instance_" ++ toString (product_id.getD 0)] else []
  let skuKeys := if truthyStr sku then
    ["product_by_sku_" ++ sku.getD ""] else []
  cacheDeleteMany σ (idKeys ++ skuKeys)

/-- The names defined at module level in `products/cache_utils.py`: a
`from .cache_utils import name` succeeds exactly when `name` is in this
list, and raises `ImportError` otherwise. -/
def products_cache_utils_names : List String :=
  ["get_products_cache_timeout", "invalidate_brand_cache",
   "invalidate_vehicle_model_cache", "invalidate_part_category_cache",
   "invalidate_product_cache", "get_active_brands", "get_active_categories",
   "get_active_models", "get_featured_products", "get_products_by_brand",
   "get_products_by_category", "get_products_by_model", "get_product_by_slug",
   "get_product_by_sku", "search_products", "get_in_stock_products",
   "get_navigation_tree"]

/-- Source `Brand.save`: fill the slug if empty, write the row, then
`invalidate_brand_cache(self.id)` (that import name does exist). The slug
fill (`slugify(self.name)`) is modelled as taking the name verbatim; only
key addressing matters to the claims, not slug normalisation. -/
def Brand.save (b : Brand) (σ : Cache) : Brand × Cache :=
  let b' := if b.slug = "" then { b with slug := b.name } else b
  (b', invalidate_brand_cache b.id σ)

/-- Source `Brand.delete`: `invalidate_brand_cache(self.id)` then the row
delete. -/
def Brand.delete (b : Brand) (σ : Cache) : Cache :=
  invalidate_brand_cache b.id σ

/-- A vehicle-model row (`products/models.py`, class `VehicleModel`): id and
owning brand id are all the cache claims need. -/
structure VehicleModel where
  id : Nat
  brand_id : Nat
  deriving DecidableEq, Repr

/-- A part-category row (`products/models.py`, class `PartCategory`): id and
nullable parent id. -/
structure PartCategory where
  id : Nat
  parent_id : Option Nat
  deriving DecidableEq, Repr

/-- Source `VehicleModel.save`: after the row write it executes
`from .cache_utils import invalidate_model_cache`, a name that
`products/cache_utils.py` does not define (the module defines
`invalidate_vehicle_model_cache` instead), so the statement raises
`ImportError` and no cache key is deleted. -/
def VehicleModel.save (_m : VehicleModel) (σ : Cache) :
    Except String Cache :=
  if "invalidate_model_cache" ∈ products_cache_utils_names then
    -- unreachable: the imported name does not exist, so there is no
    -- function body to invoke here
    Except.ok σ
  else
    Except.error "ImportError: cannot import name invalidate_model_cache"

/-- Source `VehicleModel.delete`: performs the same failing import before
`super().delete()`, so the row is not even deleted. -/
def VehicleModel.delete (_m : VehicleModel) (σ : Cache) :
    Except String Cache :=
  if "invalidate_model_cache" ∈ products_cache_utils_names then
    Except.ok σ
  else
    Except.error "ImportError: cannot import name invalidate_model_cache"

/-- Source `PartCategory.save`: after the row write it executes
`from .cache_utils import invalidate_category_cache`, a name that
`products/cache_utils.py` does not define (the module defines
`invalidate_part_category_cache` instead), so the statement raises
`ImportError` and no cache key is deleted. -/
def PartCategory.save (_pc : PartCategory) (σ : Cache) :
    Except String Cache :=
  if "invalidate_category_cache" ∈ products_cache_utils_names then
    Except.ok σ
  else
    Except.error "ImportError: cannot import name invalidate_category_cache"

/-- Source `PartCategory.delete`: same failing import before
`super().delete()`. -/
def PartCategory.delete (_pc : PartCategory) (σ : Cache) :
    Except String Cache :=
  if "invalidate_category_cache" ∈ products_cache_utils_names then
    Except.ok σ
  else
    Except.error "ImportError: cannot import name invalidate_category_cache"

/-- Source `Product.save`: fill the slug if empty, write the row, then
`invalidate_product_cache(self.id)` — the `sku` argument is not passed, so
only the id-addressed key can be deleted. -/
def Product.save (p : Product) (σ : Cache) : Product × Cache :=
  let p' := if p.slug = "" then { p with slug := p.sku } else p
  (p', invalidate_product_cache (some p.id) none σ)

/-- Source `Product.delete`: `invalidate_product_cache(self.id)` then the row
delete. -/
def Product.delete (p : Product) (σ : Cache) : Cache :=
  invalidate_product_cache (some p.id) none σ

/-- Cache key `f'product_instance_{product_id}'`. -/
def product_instance_key (product_id : Nat) : String :=
  "product_instance_" ++ toString product_id

/-- Cache key `f'product_by_slug_{product_slug}'`. -/
def product_by_slug_key (product_slug : String) : String :=
  "product_by_slug_" ++ product_slug

/-- Cache key `f'product_by_sku_{product_sku}'`. -/
def product_by_sku_key (product_sku : String) : String :=
  "product_by_sku_" ++ product_sku

/-- Source `get_product_by_slug` (`products/cache_utils.py`): a cache hit
(`cached_product is not None`) returns the cached payload with zero Store
queries; otherwise one Store query for an active product with the slug —
found: cache and return it; not found (`Product.DoesNotExist`): return `None`
without writing to the cache. The Python value `None` is `none`, any other
value `some _`. -/
def get_product_by_slug (store : List Product) (product_slug : String)
    (σ : Cache) : ReadOut (Option CVal) :=
  match σ (product_by_slug_key product_slug) with
  | some v => ⟨some v, σ, 0⟩
  | none =>
      match store.find? (fun p => p.slug == product_slug && p.isActive) with
      | some p =>
          ⟨some (CVal.product p),
           cacheSet σ (product_by_slug_key product_slug) (CVal.product p), 1⟩
      | none => ⟨none, σ, 1⟩

/-- Source `get_product_by_sku` (`products/cache_utils.py`): same shape as
`get_product_by_slug`, addressed by SKU. -/
def get_product_by_sku (store : List Product) (product_sku : String)
    (σ : Cache) : ReadOut (Option CVal) :=
  match σ (product_by_sku_key product_sku) with
  | some v => ⟨some v, σ, 0⟩
  | none =>
      match store.find? (fun p => p.sku == product_sku && p.isActive) with
      | some p =>
          ⟨some (CVal.product p),
           cacheSet σ (product_by_sku_key product_sku) (CVal.product p), 1⟩
      | none => ⟨none, σ, 1⟩

/-- Source `get_active_brands` (`products/cache_utils.py`): cache hit returns
the cached payload with zero Store queries; otherwise one Store query
filtering the active brands, cached and returned (the order-by-name of the
queryset is irrelevant to the cache behaviour and left as the store order). -/
def get_active_brands (store : List Brand) (σ : Cache) : ReadOut CVal :=
  match σ "active_brands" with
  | some v => ⟨v, σ, 0⟩
  | none =>
      let brands := store.filter (fun b => b.isActive)
      ⟨CVal.brands brands, cacheSet σ "active_brands" (CVal.brands brands), 1⟩

/-- Source `search_products`, the query sanitisation line:
`''.join(c if c.isalnum() or c in '-_' else '_' for c in query)[:50]`.
Python's `str.isalnum` is passed in as a predicate. -/
def sanitize_query (isalnum : Char → Bool) (query : List Char) : List Char :=
  (query.map (fun c => if isalnum c || c == '-' || c == '_' then c else '_')).take 50

/-- Source `search_products` cache key:
`f'search_products_{sanitized_query}_{limit}'`. -/
def search_products_cache_key (isalnum : Char → Bool) (query : List Char)
    (limit : Nat) : String :=
  "search_products_" ++ String.mk (sanitize_query isalnum query) ++ "_"
    ++ toString limit

/-- Cache key `f"user_orders_{user_id}"` (`order/utils.py`,
`get_user_orders_cache_key`). -/
def user_orders_key (user_id : Nat) : String :=
  "user_orders_" ++ toString user_id

/-- Cache key `f"cart_{user_id}"` (`cart/utils.py`,
`invalidate_user_cart_cache` and `get_cart_summary`). -/
def cart_user_key (user_id : Nat) : String :=
  "cart_" ++ toString user_id

/-- Cache key `f"cart_items_{user_id}"` (`cart/utils.py`,
`invalidate_user_cart_cache`). -/
def cart_items_user_key (user_id : Nat) : String :=
  "cart_items_" ++ toString user_id

/-- Source `OrderViewSet.list` (`order/views.py`): read-through over the
user's serialized orders list under `user_orders_{user_id}` — a hit returns
the cached payload with zero Store queries; a miss queries the Store and
caches the serialized list (orders are represented by their ids). -/
def get_user_orders (user_id : Nat) (ordersStore : List Nat) (σ : Cache) :
    ReadOut CVal :=
  match σ (user_orders_key user_id) with
  | some v => ⟨v, σ, 0⟩
  | none =>
      ⟨CVal.orders ordersStore,
       cacheSet σ (user_orders_key user_id) (CVal.orders ordersStore), 1⟩

/-- Source `get_cart_summary` (`cart/utils.py`), the aggregate part: the
summary reads `items_count`, `total_quantity` and `subtotal` through the
cart's cache-aside properties (the surrounding `cart_{user_id}` lookup only
caches the cart row, whose id is stable; the item aggregates always go
through the three property reads modelled here). -/
def get_cart_summary (c : Cart) (σ : Cache) :
    (CVal × CVal × CVal) × Cache × Nat :=
  let r1 := c.items_count σ
  let r2 := c.total_quantity r1.cache
  let r3 := c.subtotal r2.cache
  ((r1.value, r2.value, r3.value), r3.cache,
   r1.storeQueries + r2.storeQueries + r3.storeQueries)

/-- Source `OrderViewSet.checkout` (`order/views.py`), the authenticated
post-order-creation block: `cache.delete(get_user_orders_cache_key(user.id))`,
then delete the purchased items' rows
(`CartItem.objects.filter(cart=cart, product_id__in=product_ids).delete()`),
`cart.save()`, `cart._invalidate_cache()`, and finally
`cache.delete(f"cart_{user.id}")` and `cache.delete(f"cart_items_{user.id}")`. -/
def checkout_post_order (user_id : Nat) (purchasedIds : List Nat)
    (c : Cart) (σ : Cache) : Cart × Cache :=
  let σ1 := cacheDelete σ (user_orders_key user_id)
  let kept := c.items.filter (fun i => !(purchasedIds.contains i.productId))
  let c' := { c with items := kept }
  let σ2 := c'.invalidate_cache σ1
  let σ3 := cacheDelete σ2 (cart_user_key user_id)
  let σ4 := cacheDelete σ3 (cart_items_user_key user_id)
  (c', σ4)

/-- Setting a key stores its value. -/
theorem cacheSet_self (σ : Cache) (k : String) (v : CVal) :
    cacheSet σ k v k = some v := by
  simp [cacheSet]

/-- Setting one key leaves every other key unchanged. -/
theorem cacheSet_ne (σ : Cache) (k : String) (v : CVal) (k' : String)
    (h : k' ≠ k) : cacheSet σ k v k' = σ k' := by
  simp [cacheSet, h]

/-- Deleting a key removes it. -/
theorem cacheDelete_self (σ : Cache) (k : String) :
    cacheDelete σ k k = none := by
  simp [cacheDelete]

/-- Appending the same suffix to prefixes of different lengths yields
different strings. -/
theorem append_ne_of_length_ne (a b s : String) (h : a.length ≠ b.length) :
    a ++ s ≠ b ++ s := by
  intro he
  apply h
  have hl := congrArg String.length he
  rw [String.length_append, String.length_append] at hl
  omega

/-- The three aggregate keys of a cart are pairwise distinct (their literal
segments have different lengths). -/
theorem cart_keys_distinct (n : Nat) :
    cart_items_count_key n ≠ cart_total_quantity_key n ∧
    cart_items_count_key n ≠ cart_subtotal_key n ∧
    cart_total_quantity_key n ≠ cart_subtotal_key n := by
  refine ⟨?_, ?_, ?_⟩ <;>
    exact append_ne_of_length_ne _ _ _ (by decide)

/-- All three aggregate keys of cart `cartId` are absent from `σ`. -/
def aggsInvalidated (σ : Cache) (cartId : Nat) : Prop :=
  ∀ k ∈ cartAggregateKeys cartId, σ k = none

/-- Each of the three aggregate reads issues a Store query (cache miss). -/
def aggsRecompute (c : Cart) (σ : Cache) : Prop :=
  (c.items_count σ).storeQueries = 1 ∧
  (c.total_quantity σ).storeQueries = 1 ∧
  (c.subtotal σ).storeQueries = 1

/-- `Cart._invalidate_cache` leaves all three aggregate keys absent. -/
theorem invalidate_cache_aggs (c : Cart) (σ : Cache) :
    aggsInvalidated (c.invalidate_cache σ) c.id := by
  intro k hk
  exact cacheDeleteMany_mem σ _ k hk

/-- When all three aggregate keys are absent, each aggregate read misses and
issues one Store query. -/
theorem aggs_recompute_of_invalidated (c : Cart) (σ : Cache)
    (h : aggsInvalidated σ c.id) : aggsRecompute c σ := by
  have h1 := h (cart_items_count_key c.id) (by simp [cartAggregateKeys])
  have h2 := h (cart_total_quantity_key c.id) (by simp [cartAggregateKeys])
  have h3 := h (cart_subtotal_key c.id) (by simp [cartAggregateKeys])
  exact ⟨by simp [Cart.items_count, h1], by simp [Cart.total_quantity, h2],
         by simp [Cart.subtotal, h3]⟩

/-- Claim C1: every mutating cart operation — `add_item`, `remove_item` on an
item actually in the cart, `update_item_quantity` on an item actually in the
cart, and `clear` — deletes all three aggregate cache keys
(`cart_items_count_{id}`, `cart_total_quantity_{id}`, `cart_subtotal_{id}`),
so the next read of each aggregate misses the cache and recomputes from the
Store. -/
theorem cart_mutations_invalidate_aggregate_keys (c : Cart) (σ : Cache)
    (p : Product) (q : Int) :
    (aggsInvalidated (c.add_item σ p q).2.2 c.id ∧
      aggsRecompute (c.add_item σ p q).2.1 (c.add_item σ p q).2.2) ∧
    ((c.items.find? (fun i => i.productId == p.id)).isSome = true →
      aggsInvalidated (c.remove_item σ p).2.2 c.id ∧
      aggsRecompute (c.remove_item σ p).2.1 (c.remove_item σ p).2.2) ∧
    ((c.items.find? (fun i => i.productId == p.id)).isSome = true →
      aggsInvalidated (c.update_item_quantity σ p q).2.2 c.id ∧
      aggsRecompute (c.update_item_quantity σ p q).2.1
        (c.update_item_quantity σ p q).2.2) ∧
    (aggsInvalidated (c.clear σ).2 c.id ∧
      aggsRecompute (c.clear σ).1 (c.clear σ).2) := by
  refine ⟨?_, ?_, ?_, ?_⟩
  · rcases hf : c.items.find? (fun i => i.productId == p.id) with _ | item <;>
      · simp only [Cart.add_item, hf]
        exact ⟨invalidate_cache_aggs _ σ,
          aggs_recompute_of_invalidated _ _ (invalidate_cache_aggs _ σ)⟩
  · intro hin
    simp only [Cart.remove_item, hin, if_true]
    exact ⟨invalidate_cache_aggs _ σ,
      aggs_recompute_of_invalidated _ _ (invalidate_cache_aggs _ σ)⟩
  · intro hin
    by_cases hq : q ≤ 0
    · simp only [Cart.update_item_quantity, hq, if_true, Cart.remove_item,
        hin]
      exact ⟨invalidate_cache_aggs _ σ,
        aggs_recompute_of_invalidated _ _ (invalidate_cache_aggs _ σ)⟩
    · rcases hf : c.items.find? (fun i => i.productId == p.id) with _ | item
      · rw [hf] at hin
        simp at hin
      · simp only [Cart.update_item_quantity, hq, if_false, hf]
        exact ⟨invalidate_cache_aggs _ σ,
          aggs_recompute_of_invalidated _ _ (invalidate_cache_aggs _ σ)⟩
  · exact ⟨invalidate_cache_aggs _ σ,
      aggs_recompute_of_invalidated _ _ (invalidate_cache_aggs _ σ)⟩

/-- The concrete cart of the aggregate-correctness test: items
(qty=2, price=29.99) and (qty=1, price=49.99). -/
def cartC4 : Cart := ⟨7, [⟨1, 2, some (2999/100)⟩, ⟨2, 1, some (4999/100)⟩]⟩

/-- Claim C4: on a cache miss each cart aggregate is computed from the Store —
`items_count` is the number of item rows, `total_quantity` the sum of their
quantities, `subtotal` the sum of quantity × stored price — and the
immediately following read is a cache hit returning the same value with zero
Store queries; for the cart with items (qty=2, price=29.99) and
(qty=1, price=49.99) the three aggregates are 2, 3 and 109.97, both freshly
computed and after the cache round-trip. -/
theorem cart_aggregates_correct :
    (∀ (c : Cart) (σ : Cache), aggsInvalidated σ c.id →
      (c.items_count σ).value = CVal.nat (itemsCountStore c.items) ∧
      (c.total_quantity σ).value = CVal.int (sumQuantity c.items) ∧
      (c.subtotal σ).value = CVal.rat (sumSubtotal c.items) ∧
      ((c.items_count (c.items_count σ).cache).value = (c.items_count σ).value ∧
        (c.items_count (c.items_count σ).cache).storeQueries = 0) ∧
      ((c.total_quantity (c.total_quantity σ).cache).value
          = (c.total_quantity σ).value ∧
        (c.total_quantity (c.total_quantity σ).cache).storeQueries = 0) ∧
      ((c.subtotal (c.subtotal σ).cache).value = (c.subtotal σ).value ∧
        (c.subtotal (c.subtotal σ).cache).storeQueries = 0)) ∧
    ((cartC4.items_count emptyCache).value = CVal.nat 2 ∧
      (cartC4.total_quantity emptyCache).value = CVal.int 3 ∧
      (cartC4.subtotal emptyCache).value = CVal.rat (10997/100) ∧
      (cartC4.items_count (cartC4.items_count emptyCache).cache).value
        = CVal.nat 2 ∧
      (cartC4.items_count (cartC4.items_count emptyCache).cache).storeQueries
        = 0 ∧
      (cartC4.total_quantity (cartC4.total_quantity emptyCache).cache).value
        = CVal.int 3 ∧
      (cartC4.total_quantity
          (cartC4.total_quantity emptyCache).cache).storeQueries = 0 ∧
      (cartC4.subtotal (cartC4.subtotal emptyCache).cache).value
        = CVal.rat (10997/100) ∧
      (cartC4.subtotal (cartC4.subtotal emptyCache).cache).storeQueries = 0) := by
  constructor
  · intro c σ h
    have h1 := h (cart_items_count_key c.id) (by simp [cartAggregateKeys])
    have h2 := h (cart_total_quantity_key c.id) (by simp [cartAggregateKeys])
    have h3 := h (cart_subtotal_key c.id) (by simp [cartAggregateKeys])
    refine ⟨by simp [Cart.items_count, h1], by simp [Cart.total_quantity, h2],
      by simp [Cart.subtotal, h3], ?_, ?_, ?_⟩
    · constructor <;> simp [Cart.items_count, h1, cacheSet_self]
    · constructor <;> simp [Cart.total_quantity, h2, cacheSet_self]
    · constructor <;> simp [Cart.subtotal, h3, cacheSet_self]
  · refine ⟨?_, ?_, ?_, ?_, ?_, ?_, ?_, ?_, ?_⟩ <;>
      simp [cartC4, Cart.items_count, Cart.total_quantity, Cart.subtotal,
        emptyCache, cacheSet, itemsCountStore, sumQuantity, sumSubtotal,
        itemSubtotal] <;> norm_num

/-- Witness for C4: the general part applied to the concrete cart and the
empty cache, whose aggregate keys are all absent. -/
theorem cart_aggregates_correct_witness :
    (cartC4.items_count emptyCache).value
      = CVal.nat (itemsCountStore cartC4.items) :=
  (cart_aggregates_correct.1 cartC4 emptyCache (fun _ _ => rfl)).1

/-- Claim C8: for a cart with no items, each aggregate read returns 0 on a
miss, stores 0 in the cache as a legitimate value, and the immediately
following read of the same aggregate is a cache hit (zero Store queries)
returning the cached 0. -/
theorem empty_cart_aggregates_cached_as_zero (cid : Nat) (σ : Cache)
    (h : aggsInvalidated σ cid) :
    (Cart.items_count ⟨cid, []⟩ σ).value = CVal.nat 0 ∧
    (Cart.items_count ⟨cid, []⟩ σ).cache (cart_items_count_key cid)
      = some (CVal.nat 0) ∧
    (Cart.items_count ⟨cid, []⟩ (Cart.items_count ⟨cid, []⟩ σ).cache).value
      = CVal.nat 0 ∧
    (Cart.items_count ⟨cid, []⟩
        (Cart.items_count ⟨cid, []⟩ σ).cache).storeQueries = 0 ∧
    (Cart.total_quantity ⟨cid, []⟩ σ).value = CVal.int 0 ∧
    (Cart.total_quantity ⟨cid, []⟩ σ).cache (cart_total_quantity_key cid)
      = some (CVal.int 0) ∧
    (Cart.total_quantity ⟨cid, []⟩
        (Cart.total_quantity ⟨cid, []⟩ σ).cache).value = CVal.int 0 ∧
    (Cart.total_quantity ⟨cid, []⟩
        (Cart.total_quantity ⟨cid, []⟩ σ).cache).storeQueries = 0 ∧
    (Cart.subtotal ⟨cid, []⟩ σ).value = CVal.rat 0 ∧
    (Cart.subtotal ⟨cid, []⟩ σ).cache (cart_subtotal_key cid)
      = some (CVal.rat 0) ∧
    (Cart.subtotal ⟨cid, []⟩ (Cart.subtotal ⟨cid, []⟩ σ).cache).value
      = CVal.rat 0 ∧
    (Cart.subtotal ⟨cid, []⟩ (Cart.subtotal ⟨cid, []⟩ σ).cache).storeQueries
      = 0 := by
  have h1 := h (cart_items_count_key cid) (by simp [cartAggregateKeys])
  have h2 := h (cart_total_quantity_key cid) (by simp [cartAggregateKeys])
  have h3 := h (cart_subtotal_key cid) (by simp [cartAggregateKeys])
  refine ⟨?_, ?_, ?_, ?_, ?_, ?_, ?_, ?_, ?_, ?_, ?_, ?_⟩ <;>
    simp [Cart.items_count, Cart.total_quantity, Cart.subtotal, h1, h2, h3,
      cacheSet_self, itemsCountStore, sumQuantity, sumSubtotal]

/-- Witness for C8: the empty cart with id 9 against the empty cache. -/
theorem empty_cart_aggregates_cached_as_zero_witness :
    (Cart.items_count ⟨9, []⟩ emptyCache).value = CVal.nat 0 :=
  (empty_cart_aggregates_cached_as_zero 9 emptyCache (fun _ _ => rfl)).1

/-- Claim C2 (code bug): `VehicleModel.save`/`delete` execute
`from .cache_utils import invalidate_model_cache` and
`PartCategory.save`/`delete` execute
`from .cache_utils import invalidate_category_cache`, but
`products/cache_utils.py` defines neither name (it defines
`invalidate_vehicle_model_cache` and `invalidate_part_category_cache`), so
every such save or delete raises `ImportError` instead of completing and
deleting the parent's aggregate and list keys. -/
theorem vehicle_model_and_part_category_save_raise (m : VehicleModel)
    (pc : PartCategory) (σ : Cache) :
    m.save σ = Except.error
      "ImportError: cannot import name invalidate_model_cache" ∧
    m.delete σ = Except.error
      "ImportError: cannot import name invalidate_model_cache" ∧
    pc.save σ = Except.error
      "ImportError: cannot import name invalidate_category_cache" ∧
    pc.delete σ = Except.error
      "ImportError: cannot import name invalidate_category_cache" :=
  ⟨rfl, rfl, rfl, rfl⟩

/-- The concrete product of the C3 analysis: id 1, slug `brake-pad`,
sku `BP-1`. -/
def productC3 : Product := ⟨1, "brake-pad", "BP-1", 2999/100, true⟩

/-- A cache holding all three of `productC3`'s direct keys, as populated by
the read-through accessors. -/
def cacheC3 : Cache :=
  cacheSet
    (cacheSet
      (cacheSet emptyCache (product_instance_key 1) (CVal.product productC3))
      (product_by_slug_key "brake-pad") (CVal.product productC3))
    (product_by_sku_key "BP-1") (CVal.product productC3)

/-- Claim C3 counterexample: saving the product with id 1, slug `brake-pad`,
sku `BP-1` deletes only `product_instance_1`; the slug- and SKU-addressed
keys survive the save, so the claim that all three direct keys are deleted
is false. -/
theorem product_save_leaves_slug_and_sku_keys :
    ((productC3.save cacheC3).2 (product_by_slug_key "brake-pad")
      = some (CVal.product productC3)) ∧
    ((productC3.save cacheC3).2 (product_by_sku_key "BP-1")
      = some (CVal.product productC3)) ∧
    ((productC3.save cacheC3).2 (product_instance_key 1) = none) :=
  ⟨rfl, rfl, rfl⟩

/-- Claim C3 (amended): saving or deleting a Product deletes exactly the
id-addressed key `product_instance_{id}`; every other key — in particular
`product_by_slug_{slug}` and `product_by_sku_{sku}` — is left unchanged
(`invalidate_product_cache` is called with the id only). -/
theorem product_save_deletes_only_instance_key (p : Product) (σ : Cache)
    (hp : p.id ≠ 0) :
    ((p.save σ).2 (product_instance_key p.id) = none) ∧
    (Product.delete p σ (product_instance_key p.id) = none) ∧
    (∀ k, k ≠ product_instance_key p.id →
      (p.save σ).2 k = σ k ∧ Product.delete p σ k = σ k) := by
  have ht : truthyNat (some p.id) = true := by simp [truthyNat, hp]
  refine ⟨?_, ?_, ?_⟩
  · simp [Product.save, invalidate_product_cache, ht, truthyStr,
      cacheDeleteMany, cacheDelete, product_instance_key]
  · simp [Product.delete, invalidate_product_cache, ht, truthyStr,
      cacheDeleteMany, cacheDelete, product_instance_key]
  · intro k hk
    constructor <;>
      simp [Product.save, Product.delete, invalidate_product_cache, ht,
        truthyStr, cacheDeleteMany, cacheDelete, product_instance_key,
        hk] <;>
      simp [product_instance_key] at hk <;> simp [hk]

/-- Witness for the amended C3: the concrete product and cache. -/
theorem product_save_deletes_only_instance_key_witness :
    (productC3.save cacheC3).2 (product_instance_key productC3.id) = none :=
  (product_save_deletes_only_instance_key productC3 cacheC3 (by decide)).1

/-- The concrete brand of the C6 analysis. -/
def brandC6 : Brand := ⟨3, "Bosch", "bosch", true⟩

/-- A cache holding the global collection keys (`active_brands`,
`navigation_tree`) and the brand's own model keys. -/
def cacheC6 : Cache :=
  cacheSet
    (cacheSet
      (cacheSet
        (cacheSet emptyCache "active_brands" (CVal.brands [brandC6]))
        "navigation_tree" (CVal.blob 0))
      ("brand_models_count_" ++ toString 3) (CVal.nat 5))
    ("brand_models_" ++ toString 3) (CVal.blob 1)

/-- Claim C6 counterexample: saving the brand with id 3 leaves both
`active_brands` and `navigation_tree` in the cache (only the two
`brand_models*` keys are deleted), and the next `get_active_brands` read is
served from cache with zero Store queries — the stale pre-write list. -/
theorem brand_save_leaves_global_collection_keys :
    ((brandC6.save cacheC6).2 "active_brands" = some (CVal.brands [brandC6])) ∧
    ((brandC6.save cacheC6).2 "navigation_tree" = some (CVal.blob 0)) ∧
    ((get_active_brands [] ((brandC6.save cacheC6).2)).storeQueries = 0) ∧
    ((get_active_brands [] ((brandC6.save cacheC6).2)).value
      = CVal.brands [brandC6]) ∧
    ((brandC6.save cacheC6).2 ("brand_models_count_" ++ toString 3) = none) ∧
    ((brandC6.save cacheC6).2 ("brand_models_" ++ toString 3) = none) :=
  ⟨rfl, rfl, rfl, rfl, rfl, rfl⟩

/-- Claim C6 (amended): saving or deleting a Brand deletes exactly the
brand's own `brand_models_count_{id}` and `brand_models_{id}` keys; every
other key — in particular `active_brands` and `navigation_tree` — is left
unchanged, so those collection reads keep hitting the cache until TTL
expiry. -/
theorem brand_save_deletes_only_brand_model_keys (b : Brand) (σ : Cache) :
    ((b.save σ).2 ("brand_models_count_" ++ toString b.id) = none) ∧
    ((b.save σ).2 ("brand_models_" ++ toString b.id) = none) ∧
    (Brand.delete b σ ("brand_models_count_" ++ toString b.id) = none) ∧
    (Brand.delete b σ ("brand_models_" ++ toString b.id) = none) ∧
    (∀ k, k ≠ "brand_models_count_" ++ toString b.id →
      k ≠ "brand_models_" ++ toString b.id →
      (b.save σ).2 k = σ k ∧ Brand.delete b σ k = σ k) := by
  have hne : ("brand_models_count_" ++ toString b.id : String)
      ≠ "brand_models_" ++ toString b.id :=
    append_ne_of_length_ne _ _ _ (by decide)
  refine ⟨?_, ?_, ?_, ?_, ?_⟩
  · simp [Brand.save, invalidate_brand_cache, cacheDeleteMany, cacheDelete,
      hne]
  · simp [Brand.save, invalidate_brand_cache, cacheDeleteMany, cacheDelete]
  · simp [Brand.delete, invalidate_brand_cache, cacheDeleteMany, cacheDelete,
      hne]
  · simp [Brand.delete, invalidate_brand_cache, cacheDeleteMany, cacheDelete]
  · intro k hk1 hk2
    constructor <;>
      simp [Brand.save, Brand.delete, invalidate_brand_cache,
        cacheDeleteMany, cacheDelete, hk1, hk2]

/-- Witness for the amended C6: the concrete brand and cache. -/
theorem brand_save_deletes_only_brand_model_keys_witness :
    (cacheC6 "active_brands" = some (CVal.brands [brandC6])) ∧
    ((brandC6.save cacheC6).2 "active_brands" = cacheC6 "active_brands") :=
  ⟨rfl, ((brand_save_deletes_only_brand_model_keys brandC6 cacheC6).2.2.2.2
    "active_brands" (by decide) (by decide)).1⟩

/-- Claim C7: when no active product matches the slug (resp. SKU), the
read-through accessor returns `None`, performs one Store query, and leaves
the cache exactly as it was — so a repeated lookup of the same nonexistent
slug/SKU misses again and queries the Store again (no negative caching). -/
theorem missing_product_lookup_not_cached (store : List Product)
    (slug sku : String) (σ : Cache) :
    (store.find? (fun p => p.slug == slug && p.isActive) = none →
      σ (product_by_slug_key slug) = none →
      get_product_by_slug store slug σ = ⟨none, σ, 1⟩ ∧
      (get_product_by_slug store slug
        (get_product_by_slug store slug σ).cache).storeQueries = 1) ∧
    (store.find? (fun p => p.sku == sku && p.isActive) = none →
      σ (product_by_sku_key sku) = none →
      get_product_by_sku store sku σ = ⟨none, σ, 1⟩ ∧
      (get_product_by_sku store sku
        (get_product_by_sku store sku σ).cache).storeQueries = 1) := by
  constructor
  · intro hfind hkey
    have h1 : get_product_by_slug store slug σ = ⟨none, σ, 1⟩ := by
      simp [get_product_by_slug, hfind, hkey]
    refine ⟨h1, ?_⟩
    rw [h1]
    simp [get_product_by_slug, hfind, hkey]
  · intro hfind hkey
    have h1 : get_product_by_sku store sku σ = ⟨none, σ, 1⟩ := by
      simp [get_product_by_sku, hfind, hkey]
    refine ⟨h1, ?_⟩
    rw [h1]
    simp [get_product_by_sku, hfind, hkey]

/-- Witness for C7: an empty store, the slug and SKU `missing`, and the
empty cache. -/
theorem missing_product_lookup_not_cached_witness :
    get_product_by_slug [] "missing" emptyCache = ⟨none, emptyCache, 1⟩ :=
  ((missing_product_lookup_not_cached [] "missing" "missing" emptyCache).1
    rfl rfl).1

/-- Claim C9: the query-derived segment interpolated into the
`search_products` cache key contains only characters accepted by the
alphanumeric test, hyphens and underscores, and is at most 50 characters
long, for every input query. -/
theorem search_query_segment_sanitized (isalnum : Char → Bool)
    (query : List Char) :
    (sanitize_query isalnum query).length ≤ 50 ∧
    ∀ c ∈ sanitize_query isalnum query,
      isalnum c = true ∨ c = '-' ∨ c = '_' := by
  constructor
  · simp only [sanitize_query, List.length_take]
    omega
  · intro c hc
    have hc' := List.mem_of_mem_take hc
    rcases List.mem_map.mp hc' with ⟨a, _, ha⟩
    by_cases h : (isalnum a || a == '-' || a == '_') = true
    · rw [if_pos h] at ha
      subst ha
      have h' : (isalnum a = true ∨ a = '-') ∨ a = '_' := by
        simpa using h
      tauto
    · rw [if_neg h] at ha
      exact Or.inr (Or.inr ha.symm)

/-- Claim C10: the price stored on a cart item is captured from the product
when the item is first created and is not changed by later cart operations:
a second `add_item` for the same product — even with a changed product
price — increments the quantity but keeps the originally captured price, and
`total_price` and the freshly recomputed `subtotal` use the stored price, so
they are independent of the product's new price. -/
theorem cart_item_price_captured_at_first_add (cid pid : Nat)
    (slg sk : String) (price₁ price₂ : Rat) (q₁ q₂ : Int) (σ : Cache) :
    ((Cart.add_item ⟨cid, []⟩ σ ⟨pid, slg, sk, price₁, true⟩ q₁).1.price
      = some price₁) ∧
    ((Cart.add_item (Cart.add_item ⟨cid, []⟩ σ ⟨pid, slg, sk, price₁, true⟩ q₁).2.1
        (Cart.add_item ⟨cid, []⟩ σ ⟨pid, slg, sk, price₁, true⟩ q₁).2.2
        ⟨pid, slg, sk, price₂, true⟩ q₂).1.price = some price₁) ∧
    ((Cart.add_item (Cart.add_item ⟨cid, []⟩ σ ⟨pid, slg, sk, price₁, true⟩ q₁).2.1
        (Cart.add_item ⟨cid, []⟩ σ ⟨pid, slg, sk, price₁, true⟩ q₁).2.2
        ⟨pid, slg, sk, price₂, true⟩ q₂).2.1.items
      = [⟨pid, q₁ + q₂, some price₁⟩]) ∧
    ((Cart.add_item (Cart.add_item ⟨cid, []⟩ σ ⟨pid, slg, sk, price₁, true⟩ q₁).2.1
        (Cart.add_item ⟨cid, []⟩ σ ⟨pid, slg, sk, price₁, true⟩ q₁).2.2
        ⟨pid, slg, sk, price₂, true⟩ q₂).1.total_price
      = (q₁ + q₂ : Int) * price₁) ∧
    ((Cart.subtotal
        (Cart.add_item (Cart.add_item ⟨cid, []⟩ σ ⟨pid, slg, sk, price₁, true⟩ q₁).2.1
          (Cart.add_item ⟨cid, []⟩ σ ⟨pid, slg, sk, price₁, true⟩ q₁).2.2
          ⟨pid, slg, sk, price₂, true⟩ q₂).2.1
        (Cart.add_item (Cart.add_item ⟨cid, []⟩ σ ⟨pid, slg, sk, price₁, true⟩ q₁).2.1
          (Cart.add_item ⟨cid, []⟩ σ ⟨pid, slg, sk, price₁, true⟩ q₁).2.2
          ⟨pid, slg, sk, price₂, true⟩ q₂).2.2).value
      = CVal.rat ((q₁ + q₂ : Int) * price₁)) := by
  have e1 : Cart.add_item ⟨cid, []⟩ σ ⟨pid, slg, sk, price₁, true⟩ q₁
      = (⟨pid, q₁, some price₁⟩,
         ⟨cid, [⟨pid, q₁, some price₁⟩]⟩,
         Cart.invalidate_cache ⟨cid, [⟨pid, q₁, some price₁⟩]⟩ σ) := by
    simp [Cart.add_item]
  rw [e1]
  have e2 : Cart.add_item ⟨cid, [⟨pid, q₁, some price₁⟩]⟩
      (Cart.invalidate_cache ⟨cid, [⟨pid, q₁, some price₁⟩]⟩ σ)
      ⟨pid, slg, sk, price₂, true⟩ q₂
      = (⟨pid, q₁ + q₂, some price₁⟩,
         ⟨cid, [⟨pid, q₁ + q₂, some price₁⟩]⟩,
         Cart.invalidate_cache ⟨cid, [⟨pid, q₁ + q₂, some price₁⟩]⟩
           (Cart.invalidate_cache ⟨cid, [⟨pid, q₁, some price₁⟩]⟩ σ)) := by
    simp [Cart.add_item, List.find?, CartItem.save]
  rw [e2]
  have hkey : Cart.invalidate_cache ⟨cid, [⟨pid, q₁ + q₂, some price₁⟩]⟩
      (Cart.invalidate_cache ⟨cid, [⟨pid, q₁, some price₁⟩]⟩ σ)
      (cart_subtotal_key cid) = none :=
    cacheDeleteMany_mem _ _ _ (by simp [cartAggregateKeys])
  refine ⟨rfl, rfl, rfl, by simp [CartItem.total_price], ?_⟩
  simp [Cart.subtotal, hkey, sumSubtotal, itemSubtotal]

/-- When the three aggregate keys are absent, `get_cart_summary` returns the
aggregates freshly computed from the Store items. -/
theorem get_cart_summary_fresh (c : Cart) (σ : Cache)
    (h : aggsInvalidated σ c.id) :
    (get_cart_summary c σ).1
      = (CVal.nat (itemsCountStore c.items), CVal.int (sumQuantity c.items),
         CVal.rat (sumSubtotal c.items)) := by
  obtain ⟨hne12, hne13, hne23⟩ := cart_keys_distinct c.id
  have h1 := h (cart_items_count_key c.id) (by simp [cartAggregateKeys])
  have h2 := h (cart_total_quantity_key c.id) (by simp [cartAggregateKeys])
  have h3 := h (cart_subtotal_key c.id) (by simp [cartAggregateKeys])
  have h2' : cacheSet σ (cart_items_count_key c.id)
      (CVal.nat (itemsCountStore c.items)) (cart_total_quantity_key c.id)
      = none := by
    rw [cacheSet_ne _ _ _ _ (Ne.symm hne12)]
    exact h2
  have h3' : cacheSet (cacheSet σ (cart_items_count_key c.id)
        (CVal.nat (itemsCountStore c.items)))
      (cart_total_quantity_key c.id) (CVal.int (sumQuantity c.items))
      (cart_subtotal_key c.id) = none := by
    rw [cacheSet_ne _ _ _ _ (Ne.symm hne23),
      cacheSet_ne _ _ _ _ (Ne.symm hne13)]
    exact h3
  simp [get_cart_summary, Cart.items_count, Cart.total_quantity,
    Cart.subtotal, h1, h2', h3']

/-- Claim C5: the authenticated checkout path, after creating the order,
deletes the user's order-list key `user_orders_{user_id}`, removes the
purchased items from the cart, and deletes the per-user cart keys
`cart_{user_id}` and `cart_items_{user_id}` together with the cart's three
aggregate keys — so `get_cart_summary` then recomputes the aggregates of the
reduced cart from the Store and the next orders read re-queries the Store,
returning the current (new-order-including) list. -/
theorem checkout_invalidates_cart_and_order_caches (uid : Nat)
    (purchased : List Nat) (c : Cart) (σ : Cache) (ordersStore : List Nat) :
    ((checkout_post_order uid purchased c σ).2 (user_orders_key uid)
      = none) ∧
    ((checkout_post_order uid purchased c σ).2 (cart_user_key uid) = none) ∧
    ((checkout_post_order uid purchased c σ).2 (cart_items_user_key uid)
      = none) ∧
    aggsInvalidated (checkout_post_order uid purchased c σ).2 c.id ∧
    ((checkout_post_order uid purchased c σ).1.items
      = c.items.filter (fun i => !(purchased.contains i.productId))) ∧
    ((get_cart_summary (checkout_post_order uid purchased c σ).1
        (checkout_post_order uid purchased c σ).2).1
      = (CVal.nat (itemsCountStore
            (checkout_post_order uid purchased c σ).1.items),
         CVal.int (sumQuantity
            (checkout_post_order uid purchased c σ).1.items),
         CVal.rat (sumSubtotal
            (checkout_post_order uid purchased c σ).1.items))) ∧
    ((get_user_orders uid ordersStore
        (checkout_post_order uid purchased c σ).2).value
      = CVal.orders ordersStore) ∧
    ((get_user_orders uid ordersStore
        (checkout_post_order uid purchased c σ).2).storeQueries = 1) := by
  have hcart : (checkout_post_order uid purchased c σ).1
      = ⟨c.id, c.items.filter (fun i => !(purchased.contains i.productId))⟩ :=
    rfl
  have hcache : (checkout_post_order uid purchased c σ).2
      = cacheDelete
          (cacheDelete
            (Cart.invalidate_cache (checkout_post_order uid purchased c σ).1
              (cacheDelete σ (user_orders_key uid)))
            (cart_user_key uid))
          (cart_items_user_key uid) := rfl
  have horders : (checkout_post_order uid purchased c σ).2
      (user_orders_key uid) = none := by
    rw [hcache]
    apply cacheDelete_none
    apply cacheDelete_none
    apply cacheDeleteMany_none
    exact cacheDelete_self σ _
  have haggs : aggsInvalidated (checkout_post_order uid purchased c σ).2
      c.id := by
    intro k hk
    rw [hcache]
    apply cacheDelete_none
    apply cacheDelete_none
    exact cacheDeleteMany_mem _ _ k hk
  refine ⟨horders, ?_, ?_, haggs, rfl, ?_, ?_, ?_⟩
  · rw [hcache]
    apply cacheDelete_none
    exact cacheDelete_self _ _
  · rw [hcache]
    exact cacheDelete_self _ _
  · exact get_cart_summary_fresh _ _ haggs
  · simp [get_user_orders, horders]
  · simp [get_user_orders, horders]

/-- Witness for C1: removing the only item of a concrete cart (id 7, one item
for product 1) leaves the subtotal key absent. -/
theorem cart_mutations_invalidate_aggregate_keys_witness :
    (Cart.remove_item ⟨7, [⟨1, 1, some 5⟩]⟩ emptyCache
      ⟨1, "s", "k", 5, true⟩).2.2 (cart_subtotal_key 7) = none :=
  ((cart_mutations_invalidate_aggregate_keys ⟨7, [⟨1, 1, some 5⟩]⟩ emptyCache
      ⟨1, "s", "k", 5, true⟩ 1).2.1 (by decide)).1
    (cart_subtotal_key 7) (by simp [cartAggregateKeys])

/-- Witness for C9: the character kept from the concrete query `a!` satisfies
the sanitisation predicate. -/
theorem search_query_segment_sanitized_witness :
    Char.isAlphanum 'a' = true ∨ 'a' = '-' ∨ 'a' = '_' :=
  (search_query_segment_sanitized Char.isAlphanum ['a', '!']).2 'a' (by decide)
